import Mathlib

/-!
Verification of the Blackjack round engine (src/Blackjack.py).

The data model and operations below are shallow embeddings of the Python
classes `Suit`, `Rank`, `Card`, `Deck`, `Player` and `BlackjackGame`.
Presentation-only state (pygame surfaces, card positions, buttons) is out
of scope and omitted; everything that decides the round (deck, hands, bet,
chips, phase string, message string) is modelled. The phase strings
"betting", "dealing", "player_turn", "dealer_turn", "game_over" are
modelled as the enumeration `GameState`. Python's `random.shuffle` is
modelled by the Fisher-Yates swap loop it implements, parameterized by the
sequence of random draws, so that "shuffling permutes the deck" is a real
theorem rather than an assumption.
-/

/-- The `Suit` enumeration (Blackjack.py lines 32-36). -/
inductive Suit
  | hearts
  | diamonds
  | clubs
  | spades
deriving DecidableEq, Repr

/-- Python iterates an `Enum` in definition order; the order of `Suit`. -/
def Suit.all : List Suit :=
  [Suit.hearts, Suit.diamonds, Suit.clubs, Suit.spades]

/-- The `Rank` enumeration (Blackjack.py lines 38-51). -/
inductive Rank
  | two
  | three
  | four
  | five
  | six
  | seven
  | eight
  | nine
  | ten
  | jack
  | queen
  | king
  | ace
deriving DecidableEq, Repr

/-- The nominal numeric value carried by each `Rank` member (2-14, Ace = 14). -/
def Rank.value : Rank → Nat
  | Rank.two => 2
  | Rank.three => 3
  | Rank.four => 4
  | Rank.five => 5
  | Rank.six => 6
  | Rank.seven => 7
  | Rank.eight => 8
  | Rank.nine => 9
  | Rank.ten => 10
  | Rank.jack => 11
  | Rank.queen => 12
  | Rank.king => 13
  | Rank.ace => 14

/-- Python iterates an `Enum` in definition order; the order of `Rank`. -/
def Rank.all : List Rank :=
  [Rank.two, Rank.three, Rank.four, Rank.five, Rank.six, Rank.seven,
   Rank.eight, Rank.nine, Rank.ten, Rank.jack, Rank.queen, Rank.king,
   Rank.ace]

/-- A card is the pair of its suit and rank (Blackjack.py lines 53-61;
the image/position/angle fields are presentation state and omitted). -/
structure Card where
  suit : Suit
  rank : Rank
deriving DecidableEq, Repr

/-- `Card.get_value` (line 79-80): `min(self.rank.value, 10)`. -/
def Card.get_value (c : Card) : Nat :=
  min c.rank.value 10

/-- The deck: an ordered list of cards (Blackjack.py lines 94-106). -/
structure Deck where
  cards : List Card
deriving DecidableEq, Repr

/-- `Deck.build` (line 99-100): the list comprehension
`[Card(suit, rank) for suit in Suit for rank in Rank]` (suit outer loop,
rank inner loop). `Deck.__init__` calls `build`, so a fresh `Deck()` holds
exactly this list. -/
def Deck.build : Deck :=
  ⟨Suit.all.flatMap fun s => Rank.all.map fun r => ⟨s, r⟩⟩

/-- One in-place swap `x[i], x[j] = x[j], x[i]` on a list: set index `i`
to the old `x[j]` and index `j` to the old `x[i]`; out-of-range indices
leave the list unchanged. -/
def listSwap {α : Type} (xs : List α) (i j : Nat) : List α :=
  if hi : i < xs.length then
    if hj : j < xs.length then (xs.set i xs[j]).set j xs[i]
    else xs
  else xs

/-- The Fisher-Yates loop of CPython's `random.shuffle`:
`for i in reversed(range(1, len(x))): j = randbelow(i+1); swap x[i], x[j]`.
The first argument is the countdown index `i`, the second the stream of
random draws (each reduced mod `i+1` to reflect `randbelow`). -/
def shuffleAux {α : Type} (xs : List α) : Nat → List Nat → List α
  | 0, _ => xs
  | _ + 1, [] => xs
  | i + 1, j :: js => shuffleAux (listSwap xs (i + 1) (j % (i + 2))) i js

/-- `Deck.shuffle` (line 102-103) calls `random.shuffle(self.cards)`,
modelled by the Fisher-Yates loop above with `js` the random draws. -/
def Deck.shuffle (d : Deck) (js : List Nat) : Deck :=
  ⟨shuffleAux d.cards (d.cards.length - 1) js⟩

/-- `Deck.deal` (line 105-106): `self.cards.pop() if self.cards else None`.
Python `pop()` removes the last element; the result pairs the optional
dealt card with the deck left behind. -/
def Deck.deal (d : Deck) : Option Card × Deck :=
  match d.cards.getLast? with
  | none => (none, d)
  | some c => (some c, ⟨d.cards.dropLast⟩)

/-- A participant (Blackjack.py lines 108-129). -/
structure Player where
  name : String
  hand : List Card
  is_dealer : Bool
  chips : Int
deriving DecidableEq, Repr

/-- `Player.__init__`: empty hand, `chips = 1000 if not is_dealer else 0`. -/
def mkPlayer (name : String) (is_dealer : Bool) : Player :=
  { name := name
  , hand := []
  , is_dealer := is_dealer
  , chips := if is_dealer then 0 else 1000 }

/-- `Player.add_card` (line 115-116): append to the hand. -/
def Player.add_card (p : Player) (c : Card) : Player :=
  { p with hand := p.hand ++ [c] }

/-- `Player.clear_hand` (line 118-119). -/
def Player.clear_hand (p : Player) : Player :=
  { p with hand := [] }

/-- The `while value > 21 and num_aces:` loop of `get_hand_value`
(lines 125-127): subtract 10 once per ace while the total exceeds 21. -/
def reduceAces : Nat → Nat → Nat
  | value, 0 => value
  | value, n + 1 => if 21 < value then reduceAces (value - 10) n else value

/-- `Player.get_hand_value` (lines 121-129): sum of `card.get_value()`
over the hand, then the ace-reduction loop with the number of aces held. -/
def Player.get_hand_value (p : Player) : Nat :=
  reduceAces (p.hand.map Card.get_value).sum
    (p.hand.countP fun c => decide (c.rank = Rank.ace))

/-- The values of the string-typed `game_state` field of `BlackjackGame`
("betting", "dealing", "player_turn", "dealer_turn", "game_over"). -/
inductive GameState
  | betting
  | dealing
  | player_turn
  | dealer_turn
  | game_over
deriving DecidableEq, Repr

/-- Which participant a card is dealt to (`deal_card`'s argument). -/
inductive Who
  | player
  | dealer
deriving DecidableEq, Repr

/-- The engine state of `BlackjackGame` (lines 152-177): deck, the two
participants, bet, phase and message. Screen, clock, buttons and the
background surface are presentation state and omitted. -/
structure BlackjackGame where
  deck : Deck
  player : Player
  dealer : Player
  bet : Int
  game_state : GameState
  message : String
deriving DecidableEq, Repr

/-- `BlackjackGame.__init__` (lines 152-177): a fresh built deck (note:
`__init__` never calls `shuffle`), fresh participants, bet 0, phase
"betting". -/
def BlackjackGame.init : BlackjackGame :=
  { deck := Deck.build
  , player := mkPlayer "Player" false
  , dealer := mkPlayer "Dealer" true
  , bet := 0
  , game_state := GameState.betting
  , message := "Enter bet amount:" }

/-- `start_new_round` (lines 270-277): fresh deck, shuffled, both hands
cleared, message and phase reset, bet 0. -/
def BlackjackGame.start_new_round (g : BlackjackGame) (js : List Nat) :
    BlackjackGame :=
  { g with deck := Deck.build.shuffle js
         , player := g.player.clear_hand
         , dealer := g.dealer.clear_hand
         , message := "Enter bet amount:"
         , game_state := GameState.betting
         , bet := 0 }

/-- The outcome of `int(self.message.split(":")[-1])` in `place_bet`:
either a parsed integer or a `ValueError` for non-numeric input. -/
inductive BetInput
  | num (k : Int)
  | notNum
deriving DecidableEq, Repr

/-- `place_bet` (lines 279-289): accept `0 < bet <= self.player.chips`,
moving to "dealing"; otherwise reject with the out-of-range message; a
parse failure rejects with the distinct not-a-number message. -/
def BlackjackGame.place_bet (g : BlackjackGame) (input : BetInput) :
    BlackjackGame :=
  match input with
  | BetInput.num k =>
    if 0 < k ∧ k ≤ g.player.chips then
      { g with bet := k
             , game_state := GameState.dealing
             , message := "Dealing cards..." }
    else
      { g with message := "Invalid bet. Enter bet amount:" }
  | BetInput.notNum =>
    { g with message := "Invalid input. Enter bet amount:" }

/-- `deal_card` (lines 298-302): pop a card from the deck; if one came
out, append it to the given participant's hand; a `None` deal leaves the
game unchanged (the position assignment is presentation state). -/
def BlackjackGame.deal_card (g : BlackjackGame) (w : Who) : BlackjackGame :=
  match g.deck.deal with
  | (none, _) => g
  | (some c, d) =>
    match w with
    | Who.player => { g with deck := d, player := g.player.add_card c }
    | Who.dealer => { g with deck := d, dealer := g.dealer.add_card c }

/-- `deal_initial_cards` (lines 291-296): two rounds of player-then-dealer
deals, then phase "player_turn". -/
def BlackjackGame.deal_initial_cards (g : BlackjackGame) : BlackjackGame :=
  { (((g.deal_card Who.player).deal_card Who.dealer).deal_card
      Who.player).deal_card Who.dealer with
    game_state := GameState.player_turn
  , message := "Your turn: Hit or Stand?" }

/-- `player_hit` (lines 304-311): deal one card to the player; on a value
above 21 subtract the bet and end the round, otherwise stay in the
player's turn. -/
def BlackjackGame.player_hit (g : BlackjackGame) : BlackjackGame :=
  let g' := g.deal_card Who.player
  if 21 < g'.player.get_hand_value then
    { g' with message := "You busted! Dealer wins."
            , player := { g'.player with chips := g'.player.chips - g'.bet }
            , game_state := GameState.game_over }
  else
    { g' with message := "Your turn: Hit or Stand?" }

/-- `player_stand` (lines 313-315). -/
def BlackjackGame.player_stand (g : BlackjackGame) : BlackjackGame :=
  { g with game_state := GameState.dealer_turn
         , message := "Dealer\x27s turn..." }

/-- `determine_winner` (lines 323-339): dealer bust pays the bet, higher
player value pays the bet, higher dealer value takes the bet, tie leaves
chips unchanged; the phase becomes "game_over" in every branch. -/
def BlackjackGame.determine_winner (g : BlackjackGame) : BlackjackGame :=
  if 21 < g.dealer.get_hand_value then
    { g with message := "Dealer busted! You win!"
           , player := { g.player with chips := g.player.chips + g.bet }
           , game_state := GameState.game_over }
  else if g.dealer.get_hand_value < g.player.get_hand_value then
    { g with message := "You win!"
           , player := { g.player with chips := g.player.chips + g.bet }
           , game_state := GameState.game_over }
  else if g.player.get_hand_value < g.dealer.get_hand_value then
    { g with message := "Dealer wins."
           , player := { g.player with chips := g.player.chips - g.bet }
           , game_state := GameState.game_over }
  else
    { g with message := "It\x27s a tie!"
           , game_state := GameState.game_over }

/-- `dealer_turn` (lines 317-321): one step of the dealer policy — below
17 deal one card to the dealer, otherwise settle. -/
def BlackjackGame.dealer_turn (g : BlackjackGame) : BlackjackGame :=
  if g.dealer.get_hand_value < 17 then g.deal_card Who.dealer
  else g.determine_winner

/-- The engine part of the per-frame `update` (lines 221-224): the
"dealing" phase auto-deals the initial cards and the "dealer_turn" phase
runs one dealer step; all other phases leave the engine unchanged (button
hover and card tweening are presentation state). -/
def BlackjackGame.update (g : BlackjackGame) : BlackjackGame :=
  match g.game_state with
  | GameState.dealing => g.deal_initial_cards
  | GameState.dealer_turn => g.dealer_turn
  | _ => g

/-- The hide-first-dealer-card flag passed by `draw` (line 240):
`self.game_state != "dealer_turn"`. -/
def BlackjackGame.dealerHideFirst (g : BlackjackGame) : Bool :=
  decide (g.game_state ≠ GameState.dealer_turn)

/-- Which cards `draw_hand` (lines 256-263) renders as a face-down back:
index 0 when `hide_first` is set, nothing otherwise. -/
def hiddenMask (hand : List Card) (hide : Bool) : List Bool :=
  (List.range hand.length).map fun i => decide (i = 0) && hide

/-- The face-down mask of the dealer hand as `draw` (lines 235-254)
renders it. -/
def BlackjackGame.dealerHiddenMask (g : BlackjackGame) : List Bool :=
  hiddenMask g.dealer.hand g.dealerHideFirst

/-- Modelled from the spec (§6): the claimed condition for the hide flag,
true exactly while the phase is neither "dealer_turn" nor "game_over". -/
def specDealerHideFirst (ph : GameState) : Bool :=
  decide (ph ≠ GameState.dealer_turn ∧ ph ≠ GameState.game_over)

/-- A completed round about to settle: player 20 (King+Queen), dealer 18
(Ten+Eight), bet 100, chips 1000, phase "dealer_turn". -/
def gSettled : BlackjackGame :=
  { deck := ⟨[]⟩
  , player := { name := "Player"
              , hand := [⟨Suit.hearts, Rank.king⟩, ⟨Suit.hearts, Rank.queen⟩]
              , is_dealer := false
              , chips := 1000 }
  , dealer := { name := "Dealer"
              , hand := [⟨Suit.spades, Rank.ten⟩, ⟨Suit.spades, Rank.eight⟩]
              , is_dealer := true
              , chips := 0 }
  , bet := 100
  , game_state := GameState.dealer_turn
  , message := "Dealer\x27s turn..." }

/-- A player turn where the next hit busts: player 20 (King+Queen) and a
Five on top of the deck. -/
def gBust : BlackjackGame :=
  { deck := ⟨[⟨Suit.hearts, Rank.five⟩]⟩
  , player := { name := "Player"
              , hand := [⟨Suit.hearts, Rank.king⟩, ⟨Suit.hearts, Rank.queen⟩]
              , is_dealer := false
              , chips := 1000 }
  , dealer := { name := "Dealer"
              , hand := [⟨Suit.spades, Rank.ten⟩, ⟨Suit.spades, Rank.eight⟩]
              , is_dealer := true
              , chips := 0 }
  , bet := 100
  , game_state := GameState.player_turn
  , message := "Your turn: Hit or Stand?" }

/-- A player turn with an exhausted shoe. -/
def gEmpty : BlackjackGame :=
  { deck := ⟨[]⟩
  , player := { name := "Player"
              , hand := [⟨Suit.hearts, Rank.two⟩]
              , is_dealer := false
              , chips := 900 }
  , dealer := { name := "Dealer"
              , hand := [⟨Suit.clubs, Rank.ten⟩, ⟨Suit.clubs, Rank.nine⟩]
              , is_dealer := true
              , chips := 0 }
  , bet := 100
  , game_state := GameState.player_turn
  , message := "Your turn: Hit or Stand?" }

/-- A dealer turn at dealer value 16 (Ten+Six) with a card left to draw. -/
def g16 : BlackjackGame :=
  { gSettled with
    deck := ⟨[⟨Suit.clubs, Rank.five⟩]⟩
  , dealer := { name := "Dealer"
              , hand := [⟨Suit.spades, Rank.ten⟩, ⟨Suit.spades, Rank.six⟩]
              , is_dealer := true
              , chips := 0 } }

/-- A dealer turn at dealer value 17 (Ten+Seven). -/
def g17 : BlackjackGame :=
  { gSettled with
    dealer := { name := "Dealer"
              , hand := [⟨Suit.spades, Rank.ten⟩, ⟨Suit.spades, Rank.seven⟩]
              , is_dealer := true
              , chips := 0 } }

/-! ## Helper lemmas -/

theorem count_set_add {α : Type} [DecidableEq α] (c a : α) (l : List α)
    (n : Nat) (h : n < l.length) :
    (l.set n a).count c + ([l[n]].count c) = l.count c + ([a].count c) := by
  obtain ⟨l₁, l₂, hl, -, hset⟩ := @List.exists_of_set α n a l h
  have h1 := congrArg (List.count c) hl
  have h2 := congrArg (List.count c) hset
  simp only [List.count_append, List.count_cons, List.count_singleton]
    at h1 h2 ⊢
  omega

theorem listSwap_perm {α : Type} [DecidableEq α] (xs : List α) (i j : Nat) :
    List.Perm (listSwap xs i j) xs := by
  unfold listSwap
  split
  · rename_i hi
    split
    · rename_i hj
      rw [List.perm_iff_count]
      intro c
      have hlen : j < (xs.set i xs[j]).length := by simpa using hj
      have hkey : (xs.set i xs[j])[j] = xs[j] := by
        by_cases hij : i = j
        · subst hij; simp
        · simp [List.getElem_set_ne hij]
      have h1 := count_set_add c xs[j] xs i hi
      have h2 := count_set_add c xs[i] (xs.set i xs[j]) j hlen
      rw [hkey] at h2
      omega
    · exact List.Perm.refl xs
  · exact List.Perm.refl xs

theorem shuffleAux_perm {α : Type} [DecidableEq α] (js : List Nat)
    (xs : List α) (i : Nat) : List.Perm (shuffleAux xs i js) xs := by
  induction js generalizing xs i with
  | nil => cases i <;> exact List.Perm.refl xs
  | cons j js ih =>
    cases i with
    | zero => exact List.Perm.refl xs
    | succ n => exact (ih _ n).trans (listSwap_perm xs (n + 1) (j % (n + 2)))

theorem Deck.shuffle_perm (d : Deck) (js : List Nat) :
    List.Perm (d.shuffle js).cards d.cards :=
  shuffleAux_perm js d.cards (d.cards.length - 1)

theorem deal_card_player_chips (g : BlackjackGame) (w : Who) :
    (g.deal_card w).player.chips = g.player.chips := by
  rcases hd : g.deck.deal with ⟨o, d⟩
  cases o <;> cases w <;>
    simp [BlackjackGame.deal_card, hd, Player.add_card]

theorem deal_card_dealer_chips (g : BlackjackGame) (w : Who) :
    (g.deal_card w).dealer.chips = g.dealer.chips := by
  rcases hd : g.deck.deal with ⟨o, d⟩
  cases o <;> cases w <;>
    simp [BlackjackGame.deal_card, hd, Player.add_card]

theorem deal_card_bet (g : BlackjackGame) (w : Who) :
    (g.deal_card w).bet = g.bet := by
  rcases hd : g.deck.deal with ⟨o, d⟩
  cases o <;> cases w <;>
    simp [BlackjackGame.deal_card, hd]

theorem deal_card_game_state (g : BlackjackGame) (w : Who) :
    (g.deal_card w).game_state = g.game_state := by
  rcases hd : g.deck.deal with ⟨o, d⟩
  cases o <;> cases w <;>
    simp [BlackjackGame.deal_card, hd]

theorem deal_card_dealer_hand_length (g : BlackjackGame)
    (h : g.deck.cards ≠ []) :
    ((g.deal_card Who.dealer).dealer.hand).length =
      g.dealer.hand.length + 1 := by
  rcases hc : g.deck.cards.getLast? with - | c
  · exact absurd (List.getLast?_eq_none_iff.mp hc) h
  · simp [BlackjackGame.deal_card, Deck.deal, hc, Player.add_card]

theorem determine_winner_game_state (g : BlackjackGame) :
    (g.determine_winner).game_state = GameState.game_over := by
  unfold BlackjackGame.determine_winner
  split_ifs <;> rfl

theorem determine_winner_dealer_hand (g : BlackjackGame) :
    (g.determine_winner).dealer.hand = g.dealer.hand := by
  unfold BlackjackGame.determine_winner
  split_ifs <;> rfl

theorem update_of_game_over (g : BlackjackGame)
    (h : g.game_state = GameState.game_over) : g.update = g := by
  obtain ⟨dk, pl, dl, bt, gs, ms⟩ := g
  cases h
  rfl

/-! ## Claims -/

/-- Claim C1 — the claim says an Ace is scored as 11 by default (reducible
to 1), giving value 21 for Ace+Ace+Nine and `Ace+King = 21`. The code's
`Card.get_value` returns `min(rank.value, 10)` with `Rank.ACE.value = 14`,
so an Ace is scored as 10: Ace+King evaluates to 20 and Ace+Ace+Nine to
19, while the ace-free examples King+Queen = 20 and Ten+Ten+Five = 25 do
match the claim. -/
theorem C1_ace_scored_ten :
    Card.get_value ⟨Suit.spades, Rank.ace⟩ = 10 ∧
    Player.get_hand_value
      ⟨"Player", [⟨Suit.spades, Rank.ace⟩, ⟨Suit.spades, Rank.king⟩],
        false, 1000⟩ = 20 ∧
    Player.get_hand_value
      ⟨"Player", [⟨Suit.spades, Rank.ace⟩, ⟨Suit.hearts, Rank.ace⟩,
        ⟨Suit.spades, Rank.nine⟩], false, 1000⟩ = 19 ∧
    Player.get_hand_value
      ⟨"Player", [⟨Suit.spades, Rank.king⟩, ⟨Suit.spades, Rank.queen⟩],
        false, 1000⟩ = 20 ∧
    Player.get_hand_value
      ⟨"Player", [⟨Suit.spades, Rank.ten⟩, ⟨Suit.hearts, Rank.ten⟩,
        ⟨Suit.spades, Rank.five⟩], false, 1000⟩ = 25 := by
  decide

/-- Claim C2 — settlement: a dealer bust or a higher player value pays the
bet, a higher dealer value (dealer not busted) takes the bet, an equal
value leaves chips unchanged, and a player hit that busts subtracts the
bet and ends the round. -/
theorem C2_settlement (g : BlackjackGame) :
    (21 < g.dealer.get_hand_value ∨
        (g.dealer.get_hand_value ≤ 21 ∧
          g.dealer.get_hand_value < g.player.get_hand_value) →
      (g.determine_winner).player.chips = g.player.chips + g.bet) ∧
    (g.dealer.get_hand_value ≤ 21 ∧
        g.player.get_hand_value < g.dealer.get_hand_value →
      (g.determine_winner).player.chips = g.player.chips - g.bet) ∧
    (g.dealer.get_hand_value ≤ 21 ∧
        g.player.get_hand_value = g.dealer.get_hand_value →
      (g.determine_winner).player.chips = g.player.chips) ∧
    (21 < (g.player_hit).player.get_hand_value →
      (g.player_hit).player.chips = g.player.chips - g.bet ∧
      (g.player_hit).game_state = GameState.game_over) := by
  refine ⟨?_, ?_, ?_, ?_⟩
  · intro h
    unfold BlackjackGame.determine_winner
    rcases h with h | ⟨h1, h2⟩
    · rw [if_pos h]
    · rw [if_neg (by omega), if_pos h2]
  · intro ⟨h1, h2⟩
    unfold BlackjackGame.determine_winner
    rw [if_neg (by omega), if_neg (by omega), if_pos h2]
  · intro ⟨h1, h2⟩
    unfold BlackjackGame.determine_winner
    rw [if_neg (by omega), if_neg (by omega), if_neg (by omega)]
  · intro h
    by_cases hb : 21 < (g.deal_card Who.player).player.get_hand_value
    · have e : g.player_hit =
          { g.deal_card Who.player with
            message := "You busted! Dealer wins."
          , player := { (g.deal_card Who.player).player with
                        chips := (g.deal_card Who.player).player.chips -
                          (g.deal_card Who.player).bet }
          , game_state := GameState.game_over } := by
        simp only [BlackjackGame.player_hit]
        rw [if_pos hb]
      refine ⟨?_, by rw [e]⟩
      rw [e]
      show (g.deal_card Who.player).player.chips -
          (g.deal_card Who.player).bet = g.player.chips - g.bet
      rw [deal_card_player_chips, deal_card_bet]
    · exfalso
      have e : g.player_hit =
          { g.deal_card Who.player with
            message := "Your turn: Hit or Stand?" } := by
        simp only [BlackjackGame.player_hit]
        rw [if_neg hb]
      rw [e] at h
      exact hb h

/-- Claim C2 witness — winning settlement at `gSettled` (player 20 vs
dealer 18, bet 100) and the bust path at `gBust`. -/
theorem C2_settlement_witness :
    (gSettled.determine_winner).player.chips =
      gSettled.player.chips + gSettled.bet ∧
    (gBust.player_hit).player.chips = gBust.player.chips - gBust.bet ∧
    (gBust.player_hit).game_state = GameState.game_over := by
  refine ⟨(C2_settlement gSettled).1 (Or.inr ⟨by decide, by decide⟩),
    ((C2_settlement gBust).2.2.2 (by decide)).1,
    ((C2_settlement gBust).2.2.2 (by decide)).2⟩

/-- Claim C3 — bet validation: a positive bet within the chip balance is
accepted (bet set, phase to "dealing"); zero, negative or oversized bets
are rejected in place with the out-of-range message; non-numeric input is
rejected with a distinct message; the phase stays "betting" on every
rejection. -/
theorem C3_bet_validation (g : BlackjackGame) (k : Int)
    (hb : g.game_state = GameState.betting) :
    (0 < k ∧ k ≤ g.player.chips →
      (g.place_bet (BetInput.num k)).bet = k ∧
      (g.place_bet (BetInput.num k)).game_state = GameState.dealing) ∧
    (¬(0 < k ∧ k ≤ g.player.chips) →
      (g.place_bet (BetInput.num k)).bet = g.bet ∧
      (g.place_bet (BetInput.num k)).game_state = GameState.betting ∧
      (g.place_bet (BetInput.num k)).message =
        "Invalid bet. Enter bet amount:") ∧
    ((g.place_bet BetInput.notNum).bet = g.bet ∧
      (g.place_bet BetInput.notNum).game_state = GameState.betting ∧
      (g.place_bet BetInput.notNum).message =
        "Invalid input. Enter bet amount:") ∧
    ("Invalid input. Enter bet amount:" : String) ≠
      "Invalid bet. Enter bet amount:" := by
  refine ⟨?_, ?_, ⟨rfl, hb, rfl⟩, by decide⟩
  · intro hk
    simp only [BlackjackGame.place_bet]
    rw [if_pos hk]
    exact ⟨rfl, rfl⟩
  · intro hk
    simp only [BlackjackGame.place_bet]
    rw [if_neg hk]
    exact ⟨rfl, hb, rfl⟩

/-- Claim C3 witness — at the initial state (1000 chips): bet 100 is
accepted into "dealing"; bet 0 is rejected staying in "betting". -/
theorem C3_bet_validation_witness :
    (BlackjackGame.init.place_bet (BetInput.num 100)).bet = 100 ∧
    (BlackjackGame.init.place_bet (BetInput.num 100)).game_state =
      GameState.dealing ∧
    (BlackjackGame.init.place_bet (BetInput.num 0)).game_state =
      GameState.betting := by
  refine ⟨((C3_bet_validation BlackjackGame.init 100 rfl).1 (by decide)).1,
    ((C3_bet_validation BlackjackGame.init 100 rfl).1 (by decide)).2,
    ((C3_bet_validation BlackjackGame.init 0 rfl).2.1 (by decide)).2.1⟩

/-- Claim C4 — dealer policy: below 17 the dealer step deals exactly one
card (phase unchanged, so the step repeats); at 17 or more the step is
exactly settlement — no card is dealt, the hand is unchanged and the
phase becomes "game_over"; and once the phase is "game_over" the frame
update is the identity, so the dealer never draws again. -/
theorem C4_dealer_policy (g : BlackjackGame) :
    (g.dealer.get_hand_value < 17 → g.deck.cards ≠ [] →
      (g.dealer_turn).dealer.hand.length = g.dealer.hand.length + 1 ∧
      (g.dealer_turn).game_state = g.game_state) ∧
    (17 ≤ g.dealer.get_hand_value →
      g.dealer_turn = g.determine_winner ∧
      (g.dealer_turn).dealer.hand = g.dealer.hand ∧
      (g.dealer_turn).game_state = GameState.game_over) ∧
    (g.game_state = GameState.game_over → g.update = g) := by
  refine ⟨?_, ?_, update_of_game_over g⟩
  · intro h hne
    unfold BlackjackGame.dealer_turn
    rw [if_pos h]
    exact ⟨deal_card_dealer_hand_length g hne,
      deal_card_game_state g Who.dealer⟩
  · intro h
    have e : g.dealer_turn = g.determine_winner := by
      unfold BlackjackGame.dealer_turn
      rw [if_neg (by omega)]
    exact ⟨e, by rw [e]; exact determine_winner_dealer_hand g,
      by rw [e]; exact determine_winner_game_state g⟩

/-- Claim C4 witness — at dealer 16 one card is drawn; at dealer 17 the
step settles; after settlement the update is a no-op. -/
theorem C4_dealer_policy_witness :
    (g16.dealer_turn).dealer.hand.length = g16.dealer.hand.length + 1 ∧
    g17.dealer_turn = g17.determine_winner ∧
    (g17.dealer_turn).game_state = GameState.game_over ∧
    (gSettled.determine_winner).update = gSettled.determine_winner := by
  refine ⟨((C4_dealer_policy g16).1 (by decide) (by decide)).1,
    ((C4_dealer_policy g17).2.1 (by decide)).1,
    ((C4_dealer_policy g17).2.1 (by decide)).2.2,
    (C4_dealer_policy (gSettled.determine_winner)).2.2 (by decide)⟩

/-- Claim C5 — the claim says `shuffle()` is called once per round before
any deal, including the first round after construction. The code's
`__init__` only builds the deck: the engine starts with the unshuffled
build order, and the first round's opening deal is fully deterministic —
the first card popped is the Ace of Spades, and after betting 100 the
auto-deal gives the player Ace+Queen of Spades and the dealer King+Jack
of Spades, regardless of any randomness. -/
theorem C5_first_round_unshuffled :
    BlackjackGame.init.deck = Deck.build ∧
    (BlackjackGame.init.deck.deal).1 = some ⟨Suit.spades, Rank.ace⟩ ∧
    ((BlackjackGame.init.place_bet (BetInput.num 100)).update).player.hand =
      [⟨Suit.spades, Rank.ace⟩, ⟨Suit.spades, Rank.queen⟩] ∧
    ((BlackjackGame.init.place_bet (BetInput.num 100)).update).dealer.hand =
      [⟨Suit.spades, Rank.king⟩, ⟨Suit.spades, Rank.jack⟩] := by
  decide

/-- Claim C6 (counterexample) — `determine_winner` is not idempotent: at
the completed round `gSettled.determine_winner` (player 20, dealer 18,
bet 100, chips already paid to 1100) a second direct call changes the
chip balance again (to 1200). -/
theorem C6_counterexample :
    ((gSettled.determine_winner).determine_winner).player.chips ≠
      (gSettled.determine_winner).player.chips := by
  decide

/-- Claim C6 (amended) — settlement leaves the phase at "game_over", and
in that phase the engine's frame update is the identity, so the update
loop (the only caller of `dealer_turn`/`determine_winner`) never applies
the chip change a second time for the round. -/
theorem C6_no_double_settlement (g : BlackjackGame) :
    (g.determine_winner).game_state = GameState.game_over ∧
    (g.determine_winner).update = g.determine_winner ∧
    ((g.determine_winner).update).player.chips =
      (g.determine_winner).player.chips := by
  refine ⟨determine_winner_game_state g, ?_, ?_⟩
  · exact update_of_game_over _ (determine_winner_game_state g)
  · rw [update_of_game_over _ (determine_winner_game_state g)]

/-- Claim C7 (counterexample) — in the "game_over" phase the code still
hides the first dealer card: the flag is `game_state != "dealer_turn"`,
which is true at "game_over", and the rendered mask draws the dealer's
first card face down, while the claimed condition demands the flag be
false there. -/
theorem C7_counterexample :
    (gSettled.determine_winner).game_state = GameState.game_over ∧
    (gSettled.determine_winner).dealerHideFirst = true ∧
    (gSettled.determine_winner).dealerHiddenMask = [true, false] ∧
    specDealerHideFirst GameState.game_over = false := by
  decide

/-- Claim C7 (amended) — the hide-first-dealer-card flag is true exactly
while the phase is not "dealer_turn"; in particular it stays true in
"game_over", where the first dealer card is still drawn face down. -/
theorem C7_hide_flag (g : BlackjackGame) :
    g.dealerHideFirst = true ↔ g.game_state ≠ GameState.dealer_turn := by
  simp [BlackjackGame.dealerHideFirst]

/-- Claim C8 (counterexample) — an empty-shoe deal is silently ignored,
not surfaced as an error: at `gEmpty` (empty deck, player turn)
`deal_card` returns the state completely unchanged, and a hit proceeds
as a normal turn — same prompt, same phase, no error signal. -/
theorem C8_silently_ignored :
    gEmpty.deal_card Who.player = gEmpty ∧
    (gEmpty.player_hit).message = "Your turn: Hit or Stand?" ∧
    (gEmpty.player_hit).game_state = GameState.player_turn ∧
    (gEmpty.player_hit).player.hand = gEmpty.player.hand := by
  decide

/-- Claim C8 (amended) — dealing from an empty shoe yields the explicit
empty result `none` and the engine never appends a null card to a hand:
with an empty deck, `deal_card` leaves the game (hands included) entirely
unchanged; no error is surfaced. -/
theorem C8_empty_shoe (g : BlackjackGame) (w : Who)
    (h : g.deck.cards = []) :
    g.deck.deal = (none, g.deck) ∧ g.deal_card w = g := by
  have hd : g.deck.deal = (none, g.deck) := by
    unfold Deck.deal
    rw [h]
    rfl
  refine ⟨hd, ?_⟩
  unfold BlackjackGame.deal_card
  rw [hd]

/-- Claim C8 witness — the amended statement at the concrete empty-shoe
state `gEmpty`. -/
theorem C8_empty_shoe_witness :
    gEmpty.deck.deal = (none, gEmpty.deck) ∧
    gEmpty.deal_card Who.player = gEmpty :=
  C8_empty_shoe gEmpty Who.player rfl

/-- Claim C9 — a freshly built shoe has exactly 52 cards, no (suit, rank)
pair repeated; shuffling permutes the shoe's contents (multiset
unchanged); and after a new round both hands are empty, the bet is 0, the
shoe holds 52 fresh cards (a permutation of the full build) and the phase
is "betting". -/
theorem C9_shoe_and_reset (g : BlackjackGame) (js : List Nat) :
    Deck.build.cards.length = 52 ∧
    Deck.build.cards.Nodup ∧
    List.Perm ((g.deck.shuffle js).cards) g.deck.cards ∧
    (g.start_new_round js).player.hand = [] ∧
    (g.start_new_round js).dealer.hand = [] ∧
    (g.start_new_round js).bet = 0 ∧
    List.Perm ((g.start_new_round js).deck.cards) Deck.build.cards ∧
    (g.start_new_round js).deck.cards.length = 52 ∧
    (g.start_new_round js).game_state = GameState.betting := by
  refine ⟨rfl, by decide, Deck.shuffle_perm g.deck js, rfl, rfl, rfl,
    Deck.shuffle_perm Deck.build js, ?_, rfl⟩
  exact (Deck.shuffle_perm Deck.build js).length_eq.trans rfl

/-- Claim C10 — at construction the player holds 1000 chips and the dealer
0; a new round leaves both balances unchanged, and so do betting, dealing
and standing — the chip balance is touched only by settlement
(`determine_winner` and the bust path of `player_hit`). -/
theorem C10_chips_carry_over (g : BlackjackGame) (js : List Nat)
    (inp : BetInput) (w : Who) :
    BlackjackGame.init.player.chips = 1000 ∧
    BlackjackGame.init.dealer.chips = 0 ∧
    (g.start_new_round js).player.chips = g.player.chips ∧
    (g.start_new_round js).dealer.chips = g.dealer.chips ∧
    (g.place_bet inp).player.chips = g.player.chips ∧
    (g.deal_card w).player.chips = g.player.chips ∧
    (g.player_stand).player.chips = g.player.chips ∧
    (g.deal_initial_cards).player.chips = g.player.chips := by
  refine ⟨rfl, rfl, rfl, rfl, ?_, deal_card_player_chips g w, rfl, ?_⟩
  · cases inp with
    | num k =>
      simp only [BlackjackGame.place_bet]
      split_ifs <;> rfl
    | notNum => rfl
  · show ((((g.deal_card Who.player).deal_card Who.dealer).deal_card
        Who.player).deal_card Who.dealer).player.chips = g.player.chips
    rw [deal_card_player_chips, deal_card_player_chips,
      deal_card_player_chips, deal_card_player_chips]
